import Mathlib

/-!
Shallow embedding of the reconciliation engine of the KPDCL payment
reconciliation dashboard (the `ReconciliationService` shipped with
`server.js`).  Amounts are modelled as rationals; dates as integer day
numbers — the service compares dates only through `moment#diff(_, 'days')`,
which on day-granularity dates is exact integer subtraction.  The Oracle
`ROWID` of each row is modelled by a natural number `rowid`; the JS `Set`s
`matchedCorportalIds` / `matchedCCBIds` are modelled by lists of rowids,
which is membership-equivalent (only `Set#has`-style membership is ever
consumed).  The display-only `reasons` strings built by `getMatchReasons`
are not modelled: nothing downstream reads them.  The SQL fetch is external
to the engine, so `performDetailedReconciliation` takes the two fetched
record lists directly, plus the evaluation time `now` (JS `new Date()`).
-/

namespace Recon

/-- Payment modes: the fixed enum `PaymentReconciliation.PAYMENT_MODES`. -/
inductive PaymentMode where
  | BANK_COUNTER
  | BILLSAHULIYAT_PLUS
  | SMART_BS
  | JK_BANK_MPAY
  | BBPS
  | POS_MACHINES
deriving DecidableEq, Repr

/-- A fetched payment row, with the engine-relevant columns.  `eventDate` is
`PAYMENT_DATE` on the CORPORTAL (intake) side and `POSTING_DATE` on the CCB
(posting) side — exactly the two date columns the service compares. -/
structure Payment where
  consumerId : String
  paymentMode : PaymentMode
  amount : ℚ
  eventDate : ℤ
  rowid : ℕ
deriving DecidableEq, Repr

/-- The composite key of the `exact` index:
`` `${CONSUMER_ID}-${AMOUNT}-${PAYMENT_MODE}` ``, modelled as the triple of
its components. -/
def exactKey (p : Payment) : String × ℚ × PaymentMode :=
  (p.consumerId, p.amount, p.paymentMode)

/-- `calculateDateDifference`: `moment(date2).diff(moment(date1), 'days')`. -/
def calculateDateDifference (date1 date2 : ℤ) : ℤ := date2 - date1

/-- `calculateDaysDifference`: absolute day difference. -/
def calculateDaysDifference (date1 date2 : ℤ) : ℤ := |date2 - date1|

/-- `requiresActionCheck`: an unmatched CORPORTAL payment requires action
when its age exceeds the settlement allowance of its mode
(`BANK_COUNTER` ⇒ 1 day, every other mode ⇒ 2 days). -/
def requiresActionCheck (payment : Payment) (now : ℤ) : Bool :=
  let daysSincePayment := calculateDaysDifference payment.eventDate now
  let settlementDays : ℤ := if payment.paymentMode = PaymentMode.BANK_COUNTER then 1 else 2
  decide (settlementDays < daysSincePayment)

/-- `findBestDateMatch`: scan the candidate bucket keeping the first
candidate realising the smallest day difference within `daysTolerance`
(the JS loop starts from `smallestDateDiff = Infinity`, modelled by the
`none` accumulator, and replaces only on a strictly smaller difference). -/
def findBestDateMatch (corportalPayment : Payment) (ccbMatches : List Payment)
    (daysTolerance : ℚ) : Option Payment :=
  let best := ccbMatches.foldl
    (fun acc ccbPayment =>
      let daysDiff : ℤ := |corportalPayment.eventDate - ccbPayment.eventDate|
      let takes : Bool := match acc with
        | none => decide ((daysDiff : ℚ) ≤ daysTolerance)
        | some (_, smallest) =>
            decide ((daysDiff : ℚ) ≤ daysTolerance ∧ daysDiff < smallest)
      if takes then some (ccbPayment, daysDiff) else acc)
    none
  best.map Prod.fst

/-- `calculateMatchScore`: weighted sum of the four factor contributions
(consumer id 0.4, payment mode 0.3, amount tier 0.25 / 0.15 / 0, date
proximity up to 0.05). -/
def calculateMatchScore (corpPayment ccbPayment : Payment)
    (amountTolerance daysTolerance : ℚ) : ℚ :=
  let consumerScore : ℚ := if corpPayment.consumerId = ccbPayment.consumerId then 0.4 else 0
  let modeScore : ℚ := if corpPayment.paymentMode = ccbPayment.paymentMode then 0.3 else 0
  let amountDiff : ℚ := |corpPayment.amount - ccbPayment.amount|
  let amountScore : ℚ :=
    if amountDiff ≤ amountTolerance then 0.25
    else if amountDiff ≤ corpPayment.amount * 0.01 then 0.15
    else 0
  let daysDiff : ℤ := |corpPayment.eventDate - ccbPayment.eventDate|
  let dateScore : ℚ :=
    if (daysDiff : ℚ) ≤ daysTolerance then 0.05 * (1 - (daysDiff : ℚ) / daysTolerance) else 0
  consumerScore + modeScore + amountScore + dateScore

/-- A scored fuzzy candidate (`{ payment, score, reasons }`; the
display-only `reasons` strings are not modelled). -/
structure FuzzyCandidate where
  payment : Payment
  score : ℚ
deriving DecidableEq, Repr

/-- The comparator `(a, b) => b.score - a.score` of the JS stable sort:
descending by score, original order on ties. -/
def scoreDesc (a b : FuzzyCandidate) : Prop := b.score ≤ a.score

instance : DecidableRel scoreDesc := fun a b => inferInstanceAs (Decidable (b.score ≤ a.score))

instance : IsTotal FuzzyCandidate scoreDesc := ⟨fun a b => le_total b.score a.score⟩

instance : IsTrans FuzzyCandidate scoreDesc := ⟨fun _ _ _ h1 h2 => le_trans h2 h1⟩

/-- `findFuzzyMatches`: score every passed-in CCB payment, keep the ones
with a positive score, and sort them descending by score.  JS
`Array#sort` is stable, so its result is the insertion sort under
`scoreDesc`. -/
def findFuzzyMatches (corportalPayment : Payment) (ccbPayments : List Payment)
    (amountTolerance daysTolerance : ℚ) : List FuzzyCandidate :=
  let matchesList := ccbPayments.filterMap (fun ccbPayment =>
    let score := calculateMatchScore corportalPayment ccbPayment amountTolerance daysTolerance
    if 0 < score then some { payment := ccbPayment, score := score } else none)
  matchesList.insertionSort scoreDesc

/-- An `EXACT_MATCH` entry of `results.matchesList`. -/
structure MatchEntry where
  corportalPayment : Payment
  ccbPayment : Payment
  matchScore : ℚ
  dateDifference : ℤ
deriving DecidableEq, Repr

/-- A `FUZZY_MATCH` entry of `results.partialMatches` (sans `reasons`). -/
structure PartialMatchEntry where
  corportalPayment : Payment
  ccbPayment : Payment
  matchScore : ℚ
  amountDifference : ℚ
deriving DecidableEq, Repr

/-- Exception direction tags. -/
inductive ExceptionType where
  | UNMATCHED_CORPORTAL
  | UNMATCHED_CCB
deriving DecidableEq, Repr

/-- An entry of `results.exceptions`.  `daysSince` is the
`daysSincePayment` / `daysSincePosting` field. -/
structure ExceptionEntry where
  etype : ExceptionType
  payment : Payment
  daysSince : ℤ
  requiresAction : Bool
deriving DecidableEq, Repr

/-- Mutable state threaded through the exact-matching `forEach`. -/
structure ExactState where
  matchesList : List MatchEntry
  matchedCorportalIds : List ℕ
  matchedCCBIds : List ℕ
  matchedPayments : ℕ
  matchedAmount : ℚ
deriving DecidableEq, Repr

/-- One iteration of the exact-matching loop.  The candidate bucket is the
`exact`-index bucket of the CORPORTAL key — the full bucket, built once from
all CCB rows; the loop never filters it by `matchedCCBIds`. -/
def exactStep (ccbPayments : List Payment) (daysTolerance : ℚ)
    (st : ExactState) (corpPayment : Payment) : ExactState :=
  let ccbMatches := ccbPayments.filter (fun p => decide (exactKey p = exactKey corpPayment))
  match findBestDateMatch corpPayment ccbMatches daysTolerance with
  | some bestMatch =>
      let entry : MatchEntry :=
        { corportalPayment := corpPayment, ccbPayment := bestMatch, matchScore := 1.0,
          dateDifference := calculateDateDifference corpPayment.eventDate bestMatch.eventDate }
      { matchesList := st.matchesList ++ [entry],
        matchedCorportalIds := corpPayment.rowid :: st.matchedCorportalIds,
        matchedCCBIds := bestMatch.rowid :: st.matchedCCBIds,
        matchedPayments := st.matchedPayments + 1,
        matchedAmount := st.matchedAmount + corpPayment.amount }
  | none => st

/-- The exact-matching phase: fold `exactStep` over the CORPORTAL rows. -/
def exactPhase (corportalPayments ccbPayments : List Payment) (daysTolerance : ℚ) :
    ExactState :=
  corportalPayments.foldl (exactStep ccbPayments daysTolerance)
    { matchesList := [], matchedCorportalIds := [], matchedCCBIds := [],
      matchedPayments := 0, matchedAmount := 0 }

/-- Mutable state threaded through the fuzzy-matching `forEach`. -/
structure FuzzyState where
  partialMatches : List PartialMatchEntry
  matchedCorportalIds : List ℕ
  matchedCCBIds : List ℕ
  partialCount : ℕ
deriving DecidableEq, Repr

/-- One iteration of the fuzzy-matching loop: take the top-ranked candidate
(`fuzzyMatches[0]`) and accept it when its score reaches the 0.8
high-confidence threshold.  `unmatchedCCB` is the pool computed once before
the loop; the loop never removes freshly claimed payments from it. -/
def fuzzyStep (unmatchedCCB : List Payment) (amountTolerance daysTolerance : ℚ)
    (st : FuzzyState) (corpPayment : Payment) : FuzzyState :=
  let fuzzyMatches := findFuzzyMatches corpPayment unmatchedCCB amountTolerance daysTolerance
  match fuzzyMatches.head? with
  | some bestMatch =>
      if (0.8 : ℚ) ≤ bestMatch.score then
        let entry : PartialMatchEntry :=
          { corportalPayment := corpPayment, ccbPayment := bestMatch.payment,
            matchScore := bestMatch.score,
            amountDifference := |corpPayment.amount - bestMatch.payment.amount| }
        { partialMatches := st.partialMatches ++ [entry],
          matchedCorportalIds := corpPayment.rowid :: st.matchedCorportalIds,
          matchedCCBIds := bestMatch.payment.rowid :: st.matchedCCBIds,
          partialCount := st.partialCount + 1 }
      else st
  | none => st

/-- The fuzzy-matching phase: both `unmatchedCorportal` and `unmatchedCCB`
are computed once from the exact phase's matched-id sets, then `fuzzyStep`
is folded over `unmatchedCorportal`. -/
def fuzzyPhase (corportalPayments ccbPayments : List Payment) (ex : ExactState)
    (amountTolerance daysTolerance : ℚ) : FuzzyState :=
  let unmatchedCorportal := corportalPayments.filter
    (fun p => decide (p.rowid ∉ ex.matchedCorportalIds))
  let unmatchedCCB := ccbPayments.filter (fun p => decide (p.rowid ∉ ex.matchedCCBIds))
  unmatchedCorportal.foldl (fuzzyStep unmatchedCCB amountTolerance daysTolerance)
    { partialMatches := [], matchedCorportalIds := ex.matchedCorportalIds,
      matchedCCBIds := ex.matchedCCBIds, partialCount := 0 }

/-- The state produced when one fuzzy-loop iteration accepts `best` for
`corp` (the then-branch of `fuzzyStep`, named for use in statements). -/
def fuzzyAccepted (st : FuzzyState) (corp : Payment) (best : FuzzyCandidate) : FuzzyState :=
  let entry : PartialMatchEntry :=
    { corportalPayment := corp, ccbPayment := best.payment, matchScore := best.score,
      amountDifference := |corp.amount - best.payment.amount| }
  { partialMatches := st.partialMatches ++ [entry],
    matchedCorportalIds := corp.rowid :: st.matchedCorportalIds,
    matchedCCBIds := best.payment.rowid :: st.matchedCCBIds,
    partialCount := st.partialCount + 1 }

/-- `results.summary`. -/
structure Summary where
  totalCorportalPayments : ℕ
  totalCCBPayments : ℕ
  totalCorportalAmount : ℚ
  totalCCBAmount : ℚ
  matchedPayments : ℕ
  matchedAmount : ℚ
  unmatchedCorportal : ℕ
  unmatchedCCB : ℕ
  partialMatches : ℕ
deriving DecidableEq, Repr

/-- The value returned by `performDetailedReconciliation`. -/
structure ReconResults where
  summary : Summary
  matchesList : List MatchEntry
  partialMatches : List PartialMatchEntry
  exceptions : List ExceptionEntry
deriving DecidableEq, Repr

/-- Build an `UNMATCHED_CORPORTAL` exception. -/
def mkIntakeException (now : ℤ) (p : Payment) : ExceptionEntry :=
  { etype := ExceptionType.UNMATCHED_CORPORTAL, payment := p,
    daysSince := calculateDaysDifference p.eventDate now,
    requiresAction := requiresActionCheck p now }

/-- Build an `UNMATCHED_CCB` exception (`requiresAction` is literally
`true`). -/
def mkPostingException (now : ℤ) (p : Payment) : ExceptionEntry :=
  { etype := ExceptionType.UNMATCHED_CCB, payment := p,
    daysSince := calculateDaysDifference p.eventDate now,
    requiresAction := true }

/-- `performDetailedReconciliation`, with the two fetched record lists as
inputs.  Defaults in the source: `amountTolerance = 0.01`,
`daysTolerance = 2`, `includePartialMatches = true`. -/
def performDetailedReconciliation (corportalPayments ccbPayments : List Payment)
    (amountTolerance daysTolerance : ℚ) (includePartialMatches : Bool) (now : ℤ) :
    ReconResults :=
  let ex := exactPhase corportalPayments ccbPayments daysTolerance
  let fz := if includePartialMatches then
      fuzzyPhase corportalPayments ccbPayments ex amountTolerance daysTolerance
    else
      { partialMatches := [], matchedCorportalIds := ex.matchedCorportalIds,
        matchedCCBIds := ex.matchedCCBIds, partialCount := 0 }
  let exceptions :=
    (corportalPayments.filter (fun p => decide (p.rowid ∉ fz.matchedCorportalIds))).map
      (mkIntakeException now) ++
    (ccbPayments.filter (fun p => decide (p.rowid ∉ fz.matchedCCBIds))).map
      (mkPostingException now)
  { summary := {
      totalCorportalPayments := corportalPayments.length,
      totalCCBPayments := ccbPayments.length,
      totalCorportalAmount := (corportalPayments.map Payment.amount).sum,
      totalCCBAmount := (ccbPayments.map Payment.amount).sum,
      matchedPayments := ex.matchedPayments,
      matchedAmount := ex.matchedAmount,
      unmatchedCorportal := (exceptions.filter
        (fun e => decide (e.etype = ExceptionType.UNMATCHED_CORPORTAL))).length,
      unmatchedCCB := (exceptions.filter
        (fun e => decide (e.etype = ExceptionType.UNMATCHED_CCB))).length,
      partialMatches := fz.partialCount },
    matchesList := ex.matchesList,
    partialMatches := fz.partialMatches,
    exceptions := exceptions }

/-- JS `(a / b) * 100` on the engine's counters: when `b = 0` the numerator
is also `0` here and JS produces `NaN` (`0/0`), modelled as `none`; a
non-finite JS quotient is never the rational `0`. -/
def jsPercent (numerator denominator : ℚ) : Option ℚ :=
  if denominator = 0 then none else some (numerator / denominator * 100)

/-- `Number#toFixed(1)` on a non-negative quotient: round half away from
zero to one decimal place (on non-negatives, `round` is exactly that). -/
def round1 (q : ℚ) : ℚ := (round (10 * q) : ℤ) / 10

/-- `calculateAverageSettlementDays`: mean of `|dateDifference|` over the
passed `matchesList` list, `0` when it is empty, `toFixed(1)`. -/
def calculateAverageSettlementDays (matchesList : List MatchEntry) : ℚ :=
  if matchesList.length = 0 then 0
  else
    let totalDays : ℤ := (matchesList.map (fun m => |m.dateDifference|)).sum
    round1 ((totalDays : ℚ) / (matchesList.length : ℚ))

/-- The value of `getReconciliationStats` (the spread `...summary` is the
`summary` field). -/
structure Stats where
  summary : Summary
  reconciliationEfficiency : Option ℚ
  amountReconciliationRate : Option ℚ
  criticalExceptions : ℕ
  avgSettlementDays : ℚ
deriving DecidableEq, Repr

/-- `getReconciliationStats`: runs the reconciliation with default options
and derives the KPIs. -/
def getReconciliationStats (corportalPayments ccbPayments : List Payment) (now : ℤ) :
    Stats :=
  let r := performDetailedReconciliation corportalPayments ccbPayments 0.01 2 true now
  { summary := r.summary,
    reconciliationEfficiency :=
      jsPercent (r.summary.matchedPayments : ℚ) (r.summary.totalCorportalPayments : ℚ),
    amountReconciliationRate := jsPercent r.summary.matchedAmount r.summary.totalCorportalAmount,
    criticalExceptions := (r.exceptions.filter (fun e => e.requiresAction)).length,
    avgSettlementDays := calculateAverageSettlementDays r.matchesList }

/-- Fuzzy score written from the spec's words, for comparison with the
source's `calculateMatchScore`: 0.40 for equal consumer ids, plus 0.30 for
equal modes, plus the amount tier (0.25 within `amountTolerance`, else 0.15
within 1% of the intake amount, else 0), plus
`0.05 × (1 − Δdays/daysTolerance)` when `|Δdays| ≤ daysTolerance`. -/
def specFuzzyScore (intake posting : Payment) (amountTolerance daysTolerance : ℚ) : ℚ :=
  (if intake.consumerId = posting.consumerId then (0.40 : ℚ) else 0) +
  (if intake.paymentMode = posting.paymentMode then (0.30 : ℚ) else 0) +
  (if |intake.amount - posting.amount| ≤ amountTolerance then (0.25 : ℚ)
   else if |intake.amount - posting.amount| ≤ intake.amount * 0.01 then (0.15 : ℚ) else 0) +
  (if ((|intake.eventDate - posting.eventDate| : ℤ) : ℚ) ≤ daysTolerance then
     0.05 * (1 - ((|intake.eventDate - posting.eventDate| : ℤ) : ℚ) / daysTolerance)
   else 0)

/-! ### Concrete rows used by the counterexamples and witnesses -/

/-- Two CORPORTAL rows sharing one exact composite key. -/
def iC1a : Payment := ⟨"C1", PaymentMode.BBPS, 100, 0, 0⟩

/-- Second CORPORTAL row with the same key as `iC1a`. -/
def iC1b : Payment := ⟨"C1", PaymentMode.BBPS, 100, 0, 1⟩

/-- The single CCB row both `iC1a` and `iC1b` match exactly. -/
def pC1 : Payment := ⟨"C1", PaymentMode.BBPS, 100, 0, 0⟩

/-- CORPORTAL rows for the conservation counterexample. -/
def iC2a : Payment := ⟨"C2", PaymentMode.SMART_BS, 250, 1, 0⟩

/-- Second CORPORTAL row with the same key as `iC2a`. -/
def iC2b : Payment := ⟨"C2", PaymentMode.SMART_BS, 250, 1, 1⟩

/-- The single CCB row of the conservation counterexample. -/
def pC2 : Payment := ⟨"C2", PaymentMode.SMART_BS, 250, 1, 0⟩

/-- The spec's fuzzy scenario intake row `{C1, 1000.00, BBPS, D}`. -/
def iC3 : Payment := ⟨"C1", PaymentMode.BBPS, 1000.00, 0, 0⟩

/-- The spec's fuzzy scenario posting row `{C1, 1000.01, BBPS, D+1}`. -/
def pC3 : Payment := ⟨"C1", PaymentMode.BBPS, 1000.01, 1, 0⟩

/-! ### Helper lemmas -/

/-- The unsorted fuzzy-candidate build keeps exactly the payments whose
score is positive, in pool order. -/
lemma filterMap_scored_map_payment (corp : Payment) (amountTol daysTol : ℚ) :
    ∀ pool : List Payment,
      ((pool.filterMap (fun ccbPayment =>
          let score := calculateMatchScore corp ccbPayment amountTol daysTol
          if 0 < score then some ({ payment := ccbPayment, score := score } : FuzzyCandidate)
          else none)).map FuzzyCandidate.payment) =
        pool.filter (fun p => decide (0 < calculateMatchScore corp p amountTol daysTol))
  | [] => rfl
  | p :: pool => by
      by_cases h : 0 < calculateMatchScore corp p amountTol daysTol <;>
        simp [List.filterMap_cons, List.filter_cons, h, filterMap_scored_map_payment corp
          amountTol daysTol pool]

/-- In a `scoreDesc`-sorted candidate list the head carries the maximal
score. -/
lemma head_score_max {l : List FuzzyCandidate} (hs : List.Sorted scoreDesc l)
    {best : FuzzyCandidate} (h : l.head? = some best) :
    ∀ m ∈ l, m.score ≤ best.score := by
  cases l with
  | nil => cases h
  | cons a t =>
      cases Option.some.inj h
      intro m hm
      rcases List.mem_cons.mp hm with rfl | hmt
      · exact le_refl _
      · exact List.rel_of_sorted_cons hs m hmt

/-- The exact phase accumulates exactly the intake-side amount of every
match it pushes: the `matchedAmount` counter always equals the sum of
`corportalPayment.amount` over `matchesList`. -/
lemma exactFold_amount_invariant (ccbPayments : List Payment) (daysTol : ℚ) :
    ∀ (l : List Payment) (st : ExactState),
      st.matchedAmount = (st.matchesList.map (fun m => m.corportalPayment.amount)).sum →
      (l.foldl (exactStep ccbPayments daysTol) st).matchedAmount =
        ((l.foldl (exactStep ccbPayments daysTol) st).matchesList.map
          (fun m => m.corportalPayment.amount)).sum
  | [], _, h => h
  | p :: l, st, h => by
      refine exactFold_amount_invariant ccbPayments daysTol l _ ?_
      unfold exactStep
      dsimp only
      split
      · simp [h]
      · exact h

/-! ### Claims -/

/-- Claim C1 (code bug).  The exact-matching loop looks candidate buckets up
in the `exact` index built from all CCB rows and never consults
`matchedCCBIds`, so two intake rows sharing one composite key both claim the
same single posting row: on `[iC1a, iC1b]` vs `[pC1]` the run produces two
EXACT matches whose posting side is the same record (`CCB_ROWID` 0 appears
twice across matches), refuting "each posting record is claimed at most
once". -/
theorem exact_phase_double_claims_posting :
    ((performDetailedReconciliation [iC1a, iC1b] [pC1] 0.01 2 true 5).matchesList.map
        (fun m => m.ccbPayment.rowid)) = [0, 0] ∧
    (((performDetailedReconciliation [iC1a, iC1b] [pC1] 0.01 2 true 5).matchesList.map
        (fun m => m.ccbPayment.rowid)).count 0) = 2 ∧
    (performDetailedReconciliation [iC1a, iC1b] [pC1] 0.01 2 true 5).summary.totalCCBPayments
      = 1 := by
  with_unfolding_all decide

/-- Claim C2 (code bug).  Because a posting row can be consumed twice, the
posting-side conservation equation fails: on `[iC2a, iC2b]` vs `[pC2]` the
number of EXACT matches plus FUZZY matches plus `UNMATCHED_CCB` exceptions
is 2 while the total number of posting records is 1. -/
theorem conservation_fails_on_posting_side :
    (performDetailedReconciliation [iC2a, iC2b] [pC2] 0.01 2 true 5).matchesList.length +
      (performDetailedReconciliation [iC2a, iC2b] [pC2] 0.01 2 true 5).partialMatches.length +
      ((performDetailedReconciliation [iC2a, iC2b] [pC2] 0.01 2 true 5).exceptions.filter
        (fun e => decide (e.etype = ExceptionType.UNMATCHED_CCB))).length = 2 ∧
    (performDetailedReconciliation [iC2a, iC2b] [pC2] 0.01 2 true 5).summary.totalCCBPayments
      = 1 ∧
    (performDetailedReconciliation [iC2a, iC2b] [pC2] 0.01 2 true 5).matchesList.length +
      (performDetailedReconciliation [iC2a, iC2b] [pC2] 0.01 2 true 5).partialMatches.length +
      ((performDetailedReconciliation [iC2a, iC2b] [pC2] 0.01 2 true 5).exceptions.filter
        (fun e => decide (e.etype = ExceptionType.UNMATCHED_CCB))).length ≠
      (performDetailedReconciliation [iC2a, iC2b] [pC2] 0.01 2 true 5).summary.totalCCBPayments
    := by
  with_unfolding_all decide

/-- Claim C3 (confirmed).  The fuzzy score is exactly the sum of the four
independent factor contributions the spec lists (`specFuzzyScore` is that
sum written from the spec's words), and on the spec's scenario — intake
`{C1, 1000.00, BBPS, D}` vs posting `{C1, 1000.01, BBPS, D+1}` under default
tolerances — the run yields no EXACT match and one FUZZY match of score
exactly `0.975`. -/
theorem fuzzy_score_is_factor_sum :
    (∀ (intake posting : Payment) (amountTol daysTol : ℚ),
      calculateMatchScore intake posting amountTol daysTol =
        specFuzzyScore intake posting amountTol daysTol) ∧
    calculateMatchScore iC3 pC3 0.01 2 = 0.975 ∧
    (performDetailedReconciliation [iC3] [pC3] 0.01 2 true 5).matchesList = [] ∧
    ((performDetailedReconciliation [iC3] [pC3] 0.01 2 true 5).partialMatches.map
      (fun m => m.matchScore)) = [0.975] := by
  refine ⟨fun intake posting amountTol daysTol => ?_, ?_⟩
  · with_unfolding_all rfl
  · with_unfolding_all decide

/-- Claim C4 (confirmed).  The fuzzy candidates come out ranked descending
by score (`scoreDesc`-sorted, so the head is maximal), and one fuzzy-loop
iteration accepts the top-ranked candidate exactly when its score reaches
`0.8`: with the threshold met the intake row is matched to it, with the
score strictly below `0.8` — or with no candidate at all — the state is
unchanged and the intake row stays unmatched. -/
theorem fuzzy_ranking_and_threshold :
    (∀ (corp : Payment) (pool : List Payment) (amountTol daysTol : ℚ),
      List.Sorted scoreDesc (findFuzzyMatches corp pool amountTol daysTol)) ∧
    (∀ (corp : Payment) (pool : List Payment) (amountTol daysTol : ℚ)
        (best : FuzzyCandidate),
      (findFuzzyMatches corp pool amountTol daysTol).head? = some best →
      ∀ m ∈ findFuzzyMatches corp pool amountTol daysTol, m.score ≤ best.score) ∧
    (∀ (pool : List Payment) (amountTol daysTol : ℚ) (st : FuzzyState) (corp : Payment)
        (best : FuzzyCandidate),
      (findFuzzyMatches corp pool amountTol daysTol).head? = some best →
      ((0.8 ≤ best.score →
        fuzzyStep pool amountTol daysTol st corp = fuzzyAccepted st corp best) ∧
       (best.score < 0.8 → fuzzyStep pool amountTol daysTol st corp = st))) ∧
    (∀ (pool : List Payment) (amountTol daysTol : ℚ) (st : FuzzyState) (corp : Payment),
      (findFuzzyMatches corp pool amountTol daysTol).head? = none →
      fuzzyStep pool amountTol daysTol st corp = st) := by
  refine ⟨fun corp pool amountTol daysTol => ?_, fun corp pool amountTol daysTol best h => ?_,
    fun pool amountTol daysTol st corp best h => ⟨fun hs => ?_, fun hs => ?_⟩,
    fun pool amountTol daysTol st corp h => ?_⟩
  · exact List.sorted_insertionSort scoreDesc _
  · exact head_score_max (List.sorted_insertionSort scoreDesc _) h
  · simp only [fuzzyStep, h, if_pos hs, fuzzyAccepted]
  · simp only [fuzzyStep, h, if_neg (not_le.mpr hs)]
  · simp only [fuzzyStep, h]

/-- Witness for C4: on the concrete pool `[pC3]` the top-ranked candidate of
intake `iC3` scores `0.975 ≥ 0.8` and one fuzzy-loop iteration from the
empty state accepts exactly that pairing. -/
theorem fuzzy_ranking_and_threshold_witness :
    (findFuzzyMatches iC3 [pC3] 0.01 2).head? = some ⟨pC3, 0.975⟩ ∧
    (0.8 : ℚ) ≤ 0.975 ∧
    fuzzyStep [pC3] 0.01 2 ⟨[], [], [], 0⟩ iC3 =
      ⟨[⟨iC3, pC3, 0.975, 0.01⟩], [0], [0], 1⟩ := by
  have hhead : (findFuzzyMatches iC3 [pC3] 0.01 2).head? = some ⟨pC3, 0.975⟩ := by
    norm_num [findFuzzyMatches, calculateMatchScore, iC3, pC3, List.filterMap_cons,
      List.insertionSort, List.orderedInsert, abs_of_nonneg, abs_of_nonpos]
  have hstep := (fuzzy_ranking_and_threshold.2.2.1 [pC3] 0.01 2
    ⟨[], [], [], 0⟩ iC3 ⟨pC3, 0.975⟩ hhead).1 (by norm_num)
  refine ⟨hhead, by norm_num, ?_⟩
  rw [hstep]
  norm_num [fuzzyAccepted, iC3, pC3, abs_of_nonneg, abs_of_nonpos]

/-- Claim C5 counterexample.  The claim says only remaining posting records
whose rounded amount is within `±1` of the intake's rounded amount are
scored as fuzzy candidates.  On intake `{C5, 100}` against the pool
`[{C5, 5000}]` the posting row's rounded amount is 4900 buckets away, yet it
is scored and returned as a candidate (the code passes the whole remaining
pool to `findFuzzyMatches`; the `byAmount` index is never consulted). -/
theorem fuzzy_candidate_outside_buckets :
    ((findFuzzyMatches ⟨"C5", PaymentMode.BBPS, 100, 0, 0⟩
        [⟨"C5", PaymentMode.BBPS, 5000, 0, 3⟩] 0.01 2).map
      (fun c => c.payment.rowid)) = [3] ∧
    ¬ (|round ((5000 : ℚ)) - round ((100 : ℚ))| ≤ 1) := by
  with_unfolding_all decide

/-- Claim C5 (corrected).  The fuzzy candidate set for an intake record is
not bucket-restricted: it consists of all passed-in remaining posting
records whose score is positive — `findFuzzyMatches` returns a permutation
(the descending-score reordering) of exactly that filter of the pool. -/
theorem fuzzy_candidates_are_positive_scores :
    ∀ (corp : Payment) (pool : List Payment) (amountTol daysTol : ℚ),
      ((findFuzzyMatches corp pool amountTol daysTol).map FuzzyCandidate.payment).Perm
        (pool.filter (fun p => decide (0 < calculateMatchScore corp p amountTol daysTol))) := by
  intro corp pool amountTol daysTol
  have hperm := (List.perm_insertionSort scoreDesc (pool.filterMap (fun ccbPayment =>
    let score := calculateMatchScore corp ccbPayment amountTol daysTol
    if 0 < score then some ({ payment := ccbPayment, score := score } : FuzzyCandidate)
    else none))).map FuzzyCandidate.payment
  rw [filterMap_scored_map_payment corp amountTol daysTol pool] at hperm
  exact hperm

/-- Claim C6 counterexample.  On empty inputs `totalCorportalPayments = 0`
and the stats carry `none` (the JS value is `NaN`, from `0/0`), not `0`:
JavaScript raises no division error but the claimed value `0` is wrong. -/
theorem efficiency_not_zero_on_empty_input :
    (getReconciliationStats [] [] 0).summary.totalCorportalPayments = 0 ∧
    (getReconciliationStats [] [] 0).reconciliationEfficiency = none ∧
    (getReconciliationStats [] [] 0).amountReconciliationRate = none ∧
    (getReconciliationStats [] [] 0).reconciliationEfficiency ≠ some 0 := by
  with_unfolding_all decide

/-- Claim C6 (corrected).  The efficiency KPIs follow the claimed formulas
whenever the denominator is non-zero; with a zero denominator the division
yields the non-finite JS value (modelled `none`), not `0` and not an
error. -/
theorem efficiency_formula_nan_at_zero (cp pp : List Payment) (now : ℤ) :
    (getReconciliationStats cp pp now).reconciliationEfficiency =
      (if ((performDetailedReconciliation cp pp 0.01 2 true now).summary.totalCorportalPayments
          : ℚ) = 0 then none
       else some
        (((performDetailedReconciliation cp pp 0.01 2 true now).summary.matchedPayments : ℚ) /
          ((performDetailedReconciliation cp pp 0.01 2 true now).summary.totalCorportalPayments
            : ℚ) * 100)) ∧
    (getReconciliationStats cp pp now).amountReconciliationRate =
      (if (performDetailedReconciliation cp pp 0.01 2 true now).summary.totalCorportalAmount
          = 0 then none
       else some
        ((performDetailedReconciliation cp pp 0.01 2 true now).summary.matchedAmount /
          (performDetailedReconciliation cp pp 0.01 2 true now).summary.totalCorportalAmount
          * 100)) := by
  exact ⟨rfl, rfl⟩

/-- CORPORTAL row of the C7 counterexample (only fuzzy-matchable). -/
def iC7 : Payment := ⟨"C7", PaymentMode.JK_BANK_MPAY, 500.005, 0, 0⟩

/-- CCB row of the C7 counterexample. -/
def pC7 : Payment := ⟨"C7", PaymentMode.JK_BANK_MPAY, 500.00, 0, 0⟩

/-- Claim C7 counterexample.  An accepted FUZZY match contributes nothing to
`matchedAmount`: on `[iC7]` vs `[pC7]` the run accepts one fuzzy pairing,
yet `matchedAmount` stays `0` instead of the claimed intake-side sum
`500.005` over both match kinds. -/
theorem fuzzy_amount_missing_from_matched_amount :
    (performDetailedReconciliation [iC7] [pC7] 0.01 2 true 5).matchesList = [] ∧
    ((performDetailedReconciliation [iC7] [pC7] 0.01 2 true 5).partialMatches.map
      (fun m => m.corportalPayment.amount)) = [500.005] ∧
    (performDetailedReconciliation [iC7] [pC7] 0.01 2 true 5).summary.matchedAmount = 0 ∧
    (performDetailedReconciliation [iC7] [pC7] 0.01 2 true 5).summary.matchedAmount ≠
      ((performDetailedReconciliation [iC7] [pC7] 0.01 2 true 5).matchesList.map
        (fun m => m.corportalPayment.amount)).sum +
      ((performDetailedReconciliation [iC7] [pC7] 0.01 2 true 5).partialMatches.map
        (fun m => m.corportalPayment.amount)).sum := by
  have hm : (performDetailedReconciliation [iC7] [pC7] 0.01 2 true 5).matchesList = [] := by
    with_unfolding_all decide
  have hp : ((performDetailedReconciliation [iC7] [pC7] 0.01 2 true 5).partialMatches.map
      (fun m => m.corportalPayment.amount)) = [500.005] := by
    norm_num [performDetailedReconciliation, exactPhase, exactStep, exactKey, findBestDateMatch,
      fuzzyPhase, fuzzyStep, findFuzzyMatches, calculateMatchScore, iC7, pC7,
      List.insertionSort, List.orderedInsert, List.filterMap_cons, List.filter_cons,
      abs_of_nonneg, abs_of_nonpos]
  have ha : (performDetailedReconciliation [iC7] [pC7] 0.01 2 true 5).summary.matchedAmount
      = 0 := by
    with_unfolding_all decide
  refine ⟨hm, hp, ha, ?_⟩
  rw [ha, hm, hp]
  norm_num

/-- Claim C7 (corrected).  `matchedAmount` is the intake-side sum over the
EXACT matches only: for every input it equals the sum of
`corportalPayment.amount` over `matchesList`, to which fuzzy pairings never
contribute. -/
theorem matched_amount_is_exact_side_sum (cp pp : List Payment)
    (amountTol daysTol : ℚ) (ipm : Bool) (now : ℤ) :
    (performDetailedReconciliation cp pp amountTol daysTol ipm now).summary.matchedAmount =
      ((performDetailedReconciliation cp pp amountTol daysTol ipm now).matchesList.map
        (fun m => m.corportalPayment.amount)).sum := by
  exact exactFold_amount_invariant pp daysTol cp ⟨[], [], [], 0, 0⟩ (by simp)

/-- CORPORTAL row with an exact counterpart two days late. -/
def iC8a : Payment := ⟨"A8", PaymentMode.BBPS, 100, 0, 0⟩

/-- CORPORTAL row with only a fuzzy counterpart. -/
def iC8b : Payment := ⟨"B8", PaymentMode.BBPS, 200.005, 0, 1⟩

/-- CCB row matching `iC8a` exactly, posted at day 2. -/
def pC8a : Payment := ⟨"A8", PaymentMode.BBPS, 100, 2, 0⟩

/-- CCB row matching `iC8b` fuzzily, same day. -/
def pC8b : Payment := ⟨"B8", PaymentMode.BBPS, 200.00, 0, 1⟩

/-- Claim C8 counterexample.  With one EXACT match (lag 2 days) and one
accepted FUZZY match (lag 0 days), `avgSettlementDays` is `2` — the mean
over the EXACT matches only — while the claimed mean over all accepted
matches of both kinds is `1`. -/
theorem avg_settlement_excludes_fuzzy :
    (getReconciliationStats [iC8a, iC8b] [pC8a, pC8b] 2).avgSettlementDays = 2 ∧
    (performDetailedReconciliation [iC8a, iC8b] [pC8a, pC8b] 0.01 2 true 2).matchesList.length
      = 1 ∧
    (performDetailedReconciliation [iC8a, iC8b] [pC8a, pC8b] 0.01 2 true 2).partialMatches.length
      = 1 ∧
    round1 (((((performDetailedReconciliation [iC8a, iC8b] [pC8a, pC8b] 0.01 2 true
            2).matchesList.map (fun m => |m.dateDifference|)).sum +
          (((performDetailedReconciliation [iC8a, iC8b] [pC8a, pC8b] 0.01 2 true
            2).partialMatches.map (fun m =>
              |calculateDateDifference m.corportalPayment.eventDate
                m.ccbPayment.eventDate|)).sum) : ℤ) : ℚ) / (2 : ℚ)) = 1 ∧
    (2 : ℚ) ≠ 1 := by
  with_unfolding_all decide

/-- Claim C8 (corrected).  `avgSettlementDays` is
`calculateAverageSettlementDays` of the EXACT match list only (fuzzy match
records carry no `dateDifference` and are excluded): `0` when there is no
exact match, otherwise the mean of `|dateDifference|` over `matchesList`
rounded to one decimal place. -/
theorem avg_settlement_is_exact_mean :
    (∀ (cp pp : List Payment) (now : ℤ),
      (getReconciliationStats cp pp now).avgSettlementDays =
        calculateAverageSettlementDays
          ((performDetailedReconciliation cp pp 0.01 2 true now).matchesList)) ∧
    calculateAverageSettlementDays [] = 0 ∧
    (∀ ml : List MatchEntry, ml ≠ [] →
      calculateAverageSettlementDays ml =
        round1 ((((ml.map (fun m => |m.dateDifference|)).sum : ℤ) : ℚ) / (ml.length : ℚ))) := by
  refine ⟨fun cp pp now => rfl, rfl, fun ml hml => ?_⟩
  unfold calculateAverageSettlementDays
  rw [if_neg (fun h => hml (List.length_eq_zero.mp h))]

/-- Witness for C8: applying the non-empty case to a one-element match list
with `|dateDifference| = 3` gives mean `3`. -/
theorem avg_settlement_is_exact_mean_witness :
    ([(⟨iC3, pC3, 1, 3⟩ : MatchEntry)] : List MatchEntry) ≠ [] ∧
    calculateAverageSettlementDays [(⟨iC3, pC3, 1, 3⟩ : MatchEntry)] = 3 := by
  refine ⟨by simp, ?_⟩
  rw [avg_settlement_is_exact_mean.2.2 [(⟨iC3, pC3, 1, 3⟩ : MatchEntry)] (by simp)]
  norm_num [round1]

/-- Claim C9 (confirmed).  Every exception of every run obeys the
requires-action rule: an `UNMATCHED_CORPORTAL` (intake-only) exception
requires action exactly when its age exceeds the settlement allowance of
its payment mode (1 day for `BANK_COUNTER`, 2 for every other mode), and an
`UNMATCHED_CCB` (posting-only) exception always requires action. -/
theorem exception_requires_action_rule (cp pp : List Payment)
    (amountTol daysTol : ℚ) (ipm : Bool) (now : ℤ) :
    ∀ e ∈ (performDetailedReconciliation cp pp amountTol daysTol ipm now).exceptions,
      (e.etype = ExceptionType.UNMATCHED_CORPORTAL →
        (e.requiresAction = true ↔
          (if e.payment.paymentMode = PaymentMode.BANK_COUNTER then (1 : ℤ) else 2) <
            e.daysSince)) ∧
      (e.etype = ExceptionType.UNMATCHED_CCB → e.requiresAction = true) := by
  intro e he
  simp only [performDetailedReconciliation] at he
  rcases List.mem_append.mp he with hL | hR
  · rcases List.mem_map.mp hL with ⟨p, hp, rfl⟩
    refine ⟨fun _ => ?_, fun hbad => (nomatch hbad)⟩
    simp [mkIntakeException, requiresActionCheck, calculateDaysDifference]
  · rcases List.mem_map.mp hR with ⟨p, hp, rfl⟩
    exact ⟨fun hbad => (nomatch hbad), fun _ => rfl⟩

/-- Unmatched `BANK_COUNTER` row aged 2 days, for the C9 witness. -/
def iC9 : Payment := ⟨"W9", PaymentMode.BANK_COUNTER, 10, 0, 0⟩

/-- Unmatched `BBPS` row aged 2 days, for the C9 witness. -/
def iC9b : Payment := ⟨"W9B", PaymentMode.BBPS, 10, 0, 0⟩

/-- Witness for C9: a `BANK_COUNTER` intake-only exception with
`ageDays = 2 > 1` requires action, a `BBPS` one with `ageDays = 2 ≤ 2` does
not, and a posting-only exception always does. -/
theorem exception_requires_action_rule_witness :
    (mkIntakeException 2 iC9).requiresAction = true ∧
    (mkIntakeException 2 iC9b).requiresAction = false ∧
    (mkPostingException 2 iC9).requiresAction = true := by
  have h1 := exception_requires_action_rule [iC9] [] 0.01 2 true 2
    (mkIntakeException 2 iC9) (by with_unfolding_all decide)
  have h2 := exception_requires_action_rule [iC9b] [] 0.01 2 true 2
    (mkIntakeException 2 iC9b) (by with_unfolding_all decide)
  have h3 := exception_requires_action_rule [] [iC9] 0.01 2 true 2
    (mkPostingException 2 iC9) (by with_unfolding_all decide)
  refine ⟨(h1.1 rfl).mpr (by decide), ?_, h3.2 rfl⟩
  have h2f := (h2.1 rfl).not
  simp only [decide_eq_true_eq] at h2f ⊢
  have : ¬ ((if iC9b.paymentMode = PaymentMode.BANK_COUNTER then (1 : ℤ) else 2) <
      (mkIntakeException 2 iC9b).daysSince) := by decide
  cases hb : (mkIntakeException 2 iC9b).requiresAction with
  | false => rfl
  | true => exact absurd ((h2.1 rfl).mp hb) this

/-- Claim C10 (confirmed).  With `includePartialMatches = false` the fuzzy
phase is skipped: no FUZZY matches are produced, the partial-match counter
is 0, the EXACT matches are the exact phase's, and the exceptions are
exactly the intake rows not exact-matched (as `UNMATCHED_CORPORTAL`)
followed by the posting rows not exact-claimed (as `UNMATCHED_CCB`). -/
theorem no_fuzzy_phase_when_disabled (cp pp : List Payment)
    (amountTol daysTol : ℚ) (now : ℤ) :
    (performDetailedReconciliation cp pp amountTol daysTol false now).partialMatches = [] ∧
    (performDetailedReconciliation cp pp amountTol daysTol false now).summary.partialMatches
      = 0 ∧
    (performDetailedReconciliation cp pp amountTol daysTol false now).matchesList =
      (exactPhase cp pp daysTol).matchesList ∧
    (performDetailedReconciliation cp pp amountTol daysTol false now).exceptions =
      (cp.filter (fun p =>
        decide (p.rowid ∉ (exactPhase cp pp daysTol).matchedCorportalIds))).map
        (mkIntakeException now) ++
      (pp.filter (fun p =>
        decide (p.rowid ∉ (exactPhase cp pp daysTol).matchedCCBIds))).map
        (mkPostingException now) := by
  exact ⟨rfl, rfl, rfl, rfl⟩

end Recon
